import Mathlib

/-!
Shallow embedding of the weekly-stats ETL pipeline of the ff-data repository.

The embedding follows `apps/backend/src/nfldb/etl/stats.py` (the package put
first on `sys.path` by the repository `sitecustomize.py`) for the weekly-stats
helpers, and `src/src/nfldb/etl/schedule.py` for `load_games` (the backend tree
has no `etl/schedule.py`; it imports this one).

Modelling conventions:
* a pandas numeric cell is `Option ℚ`, with `none` standing for NaN/missing;
* a pandas string cell is `Option String`, with `none` standing for NaN;
* a data frame is a schema record of column-presence flags plus a list of rows;
  the row list models a frame whose index is the default `RangeIndex`, which is
  what `_clean_weekly_frame` receives along the actual pipeline (its input
  comes from `pd.concat(..., ignore_index=True)` or `pd.read_parquet`);
* fallible steps (`KeyError`, `astype` failures) return `Except String`.
-/

namespace NflDb

/-- A pandas numeric cell. `none` models NaN / a missing value. -/
abbrev Val := Option ℚ

/-- A pandas string cell. `none` models NaN. -/
abbrev SVal := Option String

/-- Translation of `series.fillna(0)` on one cell. -/
def fillna0 (v : Val) : ℚ := v.getD 0

/-- Translation of `_nullable` (stats.py): `None if pd.isna(value) else value`.
The result type is the database-side nullable column, `none` meaning NULL. -/
def nullable (v : Val) : Option ℚ :=
  match v with
  | none => none
  | some q => some q

/-- Python `round` on a real number, restricted to rationals: round half to
even (banker's rounding). Used by `_to_int`. -/
def pyRound (q : ℚ) : ℤ :=
  if q - ⌊q⌋ < 1/2 then ⌊q⌋
  else if 1/2 < q - ⌊q⌋ then ⌊q⌋ + 1
  else if ⌊q⌋ % 2 = 0 then ⌊q⌋ else ⌊q⌋ + 1

/-- Translation of `_to_int` (stats.py): `None` for NaN, otherwise
`int(round(float(value)))`. -/
def to_int (v : Val) : Option ℤ :=
  match v with
  | none => none
  | some q => some (pyRound q)

/-- Python `int()`-style truncation toward zero, as performed by
`astype(int)` on a numeric column. -/
def py_trunc (q : ℚ) : ℤ := if 0 ≤ q then ⌊q⌋ else -⌊-q⌋

/-- Translation of `astype(int)` on one cell: raises on NaN, truncates otherwise. -/
def py_int_cell (v : Val) : Except String ℤ :=
  match v with
  | none => Except.error "ValueError: cannot convert NaN to integer"
  | some q => Except.ok (py_trunc q)

/-! ### Schedule lookup (`_prepare_schedule_lookup`) -/

/-- The raw `week` cell of a schedule row: either an integer or a symbolic
label such as a playoff round name. -/
inductive WeekCell where
  | num (n : ℤ)
  | label (s : String)
deriving DecidableEq

/-- Decimal character list of a natural number (most significant first). -/
def decChars (n : ℕ) : List Char :=
  (Nat.digits 10 n).reverse.map (fun d => Char.ofNat (48 + d))

/-- Python `str` on a natural number. -/
def pyStrNat (n : ℕ) : String :=
  if n = 0 then "0" else String.mk (decChars n)

/-- Python `str` on a week cell. -/
def pyStr (w : WeekCell) : String :=
  match w with
  | .num i => if i < 0 then "-" ++ pyStrNat i.natAbs else pyStrNat i.natAbs
  | .label s => s

/-- Python `str.isdigit` (restricted to ASCII digits, as in the data). -/
def pyIsDigit (s : String) : Bool :=
  s.length != 0 && s.data.all (fun c => c.isDigit)

/-- Python `int(week)` as used after the `isdigit` guard. -/
def py_int_week (w : WeekCell) : ℤ :=
  match w with
  | .num i => i
  | .label s => ((s.toNat?).getD 0 : ℕ)

/-- One row of the raw schedule frame (the columns `load_games` and
`_prepare_schedule_lookup` read). -/
structure SchedRow where
  game_id : String
  season : ℤ
  week : WeekCell
  home_team : String
  away_team : String
  home_score : Val
  away_score : Val
deriving DecidableEq

/-- One record of the flattened schedule lookup. -/
structure LookupRec where
  season : ℤ
  week : ℤ
  team_code : String
  game_id : String
  points : Val
deriving DecidableEq

/-- Translation of `row.home_score if not pd.isna(row.home_score) else None`. -/
def na_to_none (v : Val) : Val :=
  match v with
  | none => none
  | some q => some q

/-- Translation of `_prepare_schedule_lookup` (stats.py): two records per
game row whose stringified week passes `isdigit`, none otherwise. -/
def prepare_schedule_lookup (rows : List SchedRow) : List LookupRec :=
  rows.flatMap (fun r =>
    if pyIsDigit (pyStr r.week) then
      [{ season := r.season, week := py_int_week r.week, team_code := r.home_team,
         game_id := r.game_id, points := na_to_none r.home_score },
       { season := r.season, week := py_int_week r.week, team_code := r.away_team,
         game_id := r.game_id, points := na_to_none r.away_score }]
    else [])

/-! ### Winner computation (`load_games`, schedule.py) -/

/-- Translation of the `winner` lambda inside `load_games` (schedule.py):
home team if both scores present and home strictly greater, away team if both
present and away strictly greater, otherwise `None`. -/
def game_winner (r : SchedRow) : Option String :=
  match r.home_score, r.away_score with
  | some h, some a =>
      if h > a then some r.home_team
      else if a > h then some r.away_team
      else none
  | _, _ => none

/-! ### Weekly frame normalizer (`_clean_weekly_frame`, backend stats.py) -/

/-- Column-presence flags of a raw weekly frame. A flag set to `false` means
the column does not exist in the provider frame, regardless of the per-row
field values. Columns the code indexes unconditionally (`player_id`, `season`,
`week`, `position`) are always present in the model. -/
structure Cols where
  recent_team : Bool
  team : Bool
  interceptions : Bool
  passing_interceptions : Bool
  sacks : Bool
  sacks_suffered : Bool
  def_sacks : Bool
  position_group : Bool
  rushing_fumbles_lost : Bool
  receiving_fumbles_lost : Bool
  sack_fumbles_lost : Bool
deriving DecidableEq

/-- One row of a raw weekly statistics frame. Fields of optional columns are
only meaningful when the corresponding `Cols` flag is set. -/
structure InRow where
  player_id : SVal
  recent_team : SVal
  team : SVal
  season : Val
  week : Val
  position_group : SVal
  position : SVal
  interceptions : Val
  passing_interceptions : Val
  sacks : Val
  sacks_suffered : Val
  def_sacks : Val
  rushing_fumbles_lost : Val
  receiving_fumbles_lost : Val
  sack_fumbles_lost : Val
  attempts : Val
  completions : Val
  passing_yards : Val
  passing_tds : Val
  carries : Val
  rushing_yards : Val
  rushing_tds : Val
  targets : Val
  receptions : Val
  receiving_yards : Val
  receiving_tds : Val
  fantasy_points_ppr : Val
deriving DecidableEq

/-- A raw weekly frame: schema flags plus rows (default `RangeIndex` order). -/
structure Frame where
  cols : Cols
  rows : List InRow
deriving DecidableEq

/-- Lines 315-321: the `recent_team` column, derived from `team` when absent.
Only used when at least one of the two columns exists. -/
def resolved_team (f : Frame) (r : InRow) : SVal :=
  if f.cols.recent_team then r.recent_team else r.team

/-- Lines 323-327: the `interceptions` column, derived from
`passing_interceptions` when absent, defaulted to the scalar `0` otherwise. -/
def resolved_interceptions (f : Frame) (r : InRow) : Val :=
  if f.cols.interceptions then r.interceptions
  else if f.cols.passing_interceptions then r.passing_interceptions
  else some 0

/-- Lines 329-335: the quarterback sack source column, probed in the order
`sacks`, `sacks_suffered`, then an all-zero series. -/
def qb_sacks_source (f : Frame) (r : InRow) : Val :=
  if f.cols.sacks then r.sacks
  else if f.cols.sacks_suffered then r.sacks_suffered
  else some 0

/-- Lines 337-343: the defender sack source column, probed in the order
`def_sacks`, `sacks`, then an all-zero series. -/
def defender_sacks_source (f : Frame) (r : InRow) : Val :=
  if f.cols.def_sacks then r.def_sacks
  else if f.cols.sacks then r.sacks
  else some 0

/-- Lines 345-348: `df.get("position_group")` with an all-empty fallback,
then `fillna("")`. -/
def pg_filled (f : Frame) (r : InRow) : String :=
  if f.cols.position_group then r.position_group.getD "" else ""

/-- Line 350: `position_group == "QB"`. -/
def qb_mask (f : Frame) (r : InRow) : Bool := pg_filled f r == "QB"

/-- Line 351: `position_group.isin(["DL", "LB", "DB"])`. -/
def defender_mask (f : Frame) (r : InRow) : Bool :=
  pg_filled f r == "DL" || pg_filled f r == "LB" || pg_filled f r == "DB"

/-- Line 353: the quarterback sack source with NaN filled by zero. -/
def qb_sacks_values (f : Frame) (r : InRow) : ℚ := fillna0 (qb_sacks_source f r)

/-- Line 354: the defender sack source with NaN filled by zero. -/
def defender_sacks_values (f : Frame) (r : InRow) : ℚ :=
  fillna0 (defender_sacks_source f r)

/-- Lines 356-360: the rebuilt `sacks` column (zero baseline, quarterback
values on the QB mask, defender values on the defender mask; the defender
assignment runs last). Assigned before any row is dropped, hence row-aligned. -/
def sacks_col (f : Frame) (r : InRow) : ℚ :=
  if defender_mask f r then defender_sacks_values f r
  else if qb_mask f r then qb_sacks_values f r
  else 0

/-- Line 374 right-hand side: `qb_sacks_values.where(qb_mask, 0.0)`, a series
still indexed by the positions of the original, unfiltered frame. -/
def sacks_allowed_series (f : Frame) (r : InRow) : ℚ :=
  if qb_mask f r then qb_sacks_values f r else 0

/-- Line 375 right-hand side: `defender_sacks_values.where(defender_mask, 0.0)`,
likewise indexed by the original frame positions. -/
def def_sacks_series (f : Frame) (r : InRow) : ℚ :=
  if defender_mask f r then defender_sacks_values f r else 0

/-- Lines 362-365: the row filter (`player_id` present and non-blank, resolved
team present and different from the multi-team marker `"TOT"`). -/
def keeps (f : Frame) (r : InRow) : Bool :=
  r.player_id.isSome && r.player_id.getD "" != ""
    && (resolved_team f r).isSome && (resolved_team f r).getD "" != "TOT"

/-- Lines 376-381: `fumbles_total`, the sum of the three fumble-lost columns,
each defaulted to an all-zero series when absent and NaN-filled with zero.
Computed on the filtered frame from the surviving row itself. -/
def fumbles_total_of (f : Frame) (r : InRow) : ℚ :=
  (if f.cols.rushing_fumbles_lost then fillna0 r.rushing_fumbles_lost else 0)
    + (if f.cols.receiving_fumbles_lost then fillna0 r.receiving_fumbles_lost else 0)
    + (if f.cols.sack_fumbles_lost then fillna0 r.sack_fumbles_lost else 0)

/-- Lines 382-385: the `turnovers` column of a surviving row: interceptions
(NaN-filled) counted only where the raw `position_group` cell equals `"QB"`,
plus `fumbles_total`. -/
def turnovers_of (f : Frame) (r : InRow) : ℚ :=
  (if r.position_group = some "QB" then fillna0 (resolved_interceptions f r) else 0)
    + fumbles_total_of f r

/-- Lines 366-369: `astype(int)` of the season and week cells of every
surviving row. Pandas coerces column-wise (all seasons, then all weeks); the
row-wise recursion here raises exactly when some row has a NaN season or week,
which is the only fact the claims depend on. -/
def coerce_rows (l : List InRow) : Except String (List (InRow × ℤ × ℤ)) :=
  match l with
  | [] => Except.ok []
  | r :: t =>
      match py_int_cell r.season, py_int_cell r.week, coerce_rows t with
      | Except.ok s, Except.ok w, Except.ok rest => Except.ok ((r, s, w) :: rest)
      | Except.error e, _, _ => Except.error e
      | _, Except.error e, _ => Except.error e
      | _, _, Except.error e => Except.error e

/-- Lines 362-371: filtered rows with their coerced season and week
(`astype(int)` raises on NaN), then the optional week allow-list filter. -/
def kept_rows (f : Frame) (target_weeks : Option (List ℤ)) :
    Except String (List (InRow × ℤ × ℤ)) :=
  match coerce_rows (f.rows.filter (keeps f)) with
  | Except.error e => Except.error e
  | Except.ok coerced =>
      match target_weeks with
      | none => Except.ok coerced
      | some ws => Except.ok (coerced.filter (fun t => t.2.2 ∈ ws))

/-- One row of the canonical (normalized) weekly frame. -/
structure OutRow where
  player_id : String
  recent_team : String
  season : ℤ
  week : ℤ
  position_group : SVal
  position : SVal
  interceptions : Val
  sacks : ℚ
  sacks_allowed : ℚ
  def_sacks : ℚ
  fumbles_total : ℚ
  turnovers : ℚ
  attempts : Val
  completions : Val
  passing_yards : Val
  passing_tds : Val
  carries : Val
  rushing_yards : Val
  rushing_tds : Val
  targets : Val
  receptions : Val
  receiving_yards : Val
  receiving_tds : Val
  fantasy_points_ppr : Val
deriving DecidableEq

/-- Translation of `_clean_weekly_frame` (backend stats.py, lines 310-386).

The `sacks_allowed` and `def_sacks` columns are assigned (lines 374-375) from
series that carry the index of the original, unfiltered frame, after the frame
has been filtered and `reset_index(drop=True)`-ed (line 372): pandas aligns the
assignment on index labels, so the j-th surviving row receives the masked sack
values of the j-th row of the ORIGINAL frame (`f.rows.take k` below).
All other derived columns are computed from the surviving row itself.

The function raises (`Except.error`) when both team columns are absent
(line 319), when `astype(int)` meets NaN (lines 368-369), and when the
`position_group` column is absent (line 383 indexes `df["position_group"]`
directly, bypassing the fallback of lines 345-348). -/
def clean_weekly_frame (f : Frame) (target_weeks : Option (List ℤ)) :
    Except String (List OutRow) :=
  if !f.cols.recent_team && !f.cols.team then
    Except.error
      "KeyError: weekly stats feed is missing both recent_team and team columns"
  else
    match kept_rows f target_weeks with
    | Except.error e => Except.error e
    | Except.ok survivors =>
        if !f.cols.position_group then
          Except.error "KeyError: position_group"
        else
          Except.ok ((survivors.zip (f.rows.take survivors.length)).map (fun p =>
    { player_id := p.1.1.player_id.getD ""
      recent_team := (resolved_team f p.1.1).getD ""
      season := p.1.2.1
      week := p.1.2.2
      position_group := p.1.1.position_group
      position := p.1.1.position
      interceptions := resolved_interceptions f p.1.1
      sacks := sacks_col f p.1.1
      sacks_allowed := sacks_allowed_series f p.2
      def_sacks := def_sacks_series f p.2
      fumbles_total := fumbles_total_of f p.1.1
      turnovers := turnovers_of f p.1.1
      attempts := p.1.1.attempts
      completions := p.1.1.completions
      passing_yards := p.1.1.passing_yards
      passing_tds := p.1.1.passing_tds
      carries := p.1.1.carries
      rushing_yards := p.1.1.rushing_yards
      rushing_tds := p.1.1.rushing_tds
      targets := p.1.1.targets
      receptions := p.1.1.receptions
      receiving_yards := p.1.1.receiving_yards
      receiving_tds := p.1.1.receiving_tds
      fantasy_points_ppr := p.1.1.fantasy_points_ppr }))

/-! ### Team aggregation (`_aggregate_team_stats`) -/

/-- One row of the grouped team statistics frame. -/
structure TeamAgg where
  season : ℤ
  week : ℤ
  team_code : String
  pass_yards : ℚ
  rush_yards : ℚ
  sacks_allowed : ℚ
  sacks_made : ℚ
  turnovers : ℚ
  yards : ℚ
deriving DecidableEq

/-- Grouping key of `_aggregate_team_stats`. -/
abbrev TeamKey := ℤ × ℤ × String

/-- Lexicographic order on grouping keys (pandas `groupby` sorts keys). -/
def team_key_le (a b : TeamKey) : Prop :=
  a.1 < b.1 ∨ (a.1 = b.1 ∧ (a.2.1 < b.2.1 ∨ (a.2.1 = b.2.1 ∧ a.2.2 ≤ b.2.2)))

instance : DecidableRel team_key_le := fun a b => by
  unfold team_key_le; infer_instance

/-- Sum of a numeric column over the rows of one group; pandas `sum` skips
NaN values and returns `0` for an empty or all-NaN group. -/
def group_sum (rows : List OutRow) (k : TeamKey) (g : OutRow → Val) : ℚ :=
  (rows.filter (fun r => (r.season, r.week, r.recent_team) == k)).foldl
    (fun acc r => acc + fillna0 (g r)) 0

/-- Translation of `_aggregate_team_stats` (stats.py): group the normalized
frame by (season, week, recent_team), sum the five statistic columns, rename
the team column and add `yards = pass_yards + rush_yards`. -/
def dedup_keys (l : List TeamKey) : List TeamKey :=
  l.foldl (fun acc k => if k ∈ acc then acc else acc ++ [k]) []

def aggregate_team_stats (rows : List OutRow) : List TeamAgg :=
  let keys := dedup_keys (rows.map (fun r => ((r.season, r.week, r.recent_team) : TeamKey)))
  (keys.insertionSort team_key_le).map (fun k =>
    let p := group_sum rows k (fun r => r.passing_yards)
    let ru := group_sum rows k (fun r => r.rushing_yards)
    { season := k.1, week := k.2.1, team_code := k.2.2,
      pass_yards := p, rush_yards := ru,
      sacks_allowed := group_sum rows k (fun r => some r.sacks_allowed),
      sacks_made := group_sum rows k (fun r => some r.def_sacks),
      turnovers := group_sum rows k (fun r => some r.turnovers),
      yards := p + ru })

/-! ### Merging against the schedule lookup and record building -/

/-- One row of `team_stats.merge(lookup, on=[season, week, team_code],
how="left")`: `game_id`/`points` are NaN when the left row had no match. -/
structure MergedTeam where
  t : TeamAgg
  game_id : Option String
  points : Val
deriving DecidableEq

/-- The left merge of `_upsert_team_stats` (line 456): each team row yields
one merged row per matching lookup record, or a single row with NaN game
columns when no lookup record matches. -/
def merge_team (ts : List TeamAgg) (lookup : List LookupRec) : List MergedTeam :=
  ts.flatMap (fun r =>
    let ms := lookup.filter (fun l =>
      l.season == r.season && l.week == r.week && l.team_code == r.team_code)
    if ms.isEmpty then [{ t := r, game_id := none, points := none }]
    else ms.map (fun l => { t := r, game_id := some l.game_id, points := l.points }))

/-- One record of the `_upsert_team_stats` payload (the dict built at lines
460-474): every numeric statistic goes through `_to_int`. -/
structure TeamRec where
  game_key : String
  team_code : String
  season : ℤ
  week : ℤ
  points : Option ℤ
  yards : Option ℤ
  pass_yards : Option ℤ
  rush_yards : Option ℤ
  sacks_made : Option ℤ
  sacks_allowed : Option ℤ
  turnovers : Option ℤ
deriving DecidableEq

/-- The record built for one merged team row that survived the
`game_id.notna()` filter (line 457). -/
def build_team_rec (g : String) (m : MergedTeam) : TeamRec :=
  { game_key := g
    team_code := m.t.team_code
    season := m.t.season
    week := m.t.week
    points := to_int m.points
    yards := to_int (some m.t.yards)
    pass_yards := to_int (some m.t.pass_yards)
    rush_yards := to_int (some m.t.rush_yards)
    sacks_made := to_int (some m.t.sacks_made)
    sacks_allowed := to_int (some m.t.sacks_allowed)
    turnovers := to_int (some m.t.turnovers) }

/-- Lines 456-474 of `_upsert_team_stats`: merge, drop unmatched rows, build
the upsert records. -/
def team_records (ts : List TeamAgg) (lookup : List LookupRec) : List TeamRec :=
  (merge_team ts lookup).filterMap (fun m =>
    match m.game_id with
    | none => none
    | some g => some (build_team_rec g m))

/-- One row of the player payload produced by `_prepare_player_payload`,
after the `game_id.notna()` filter: the normalized row together with the
matched lookup columns and the `fumbles` column. -/
structure PayloadRow where
  out : OutRow
  game_id : String
  team_code : String
  points : Val
  fumbles : ℚ
deriving DecidableEq

/-- The left merge of `_prepare_player_payload` (lines 504-509), before the
`notna` filter. -/
structure MergedPlayer where
  out : OutRow
  game_id : Option String
  team_code : Option String
  points : Val
deriving DecidableEq

/-- Lines 504-509: merge the normalized frame against the lookup on
(season, week, recent_team) = (season, week, team_code). -/
def merge_player (rows : List OutRow) (lookup : List LookupRec) : List MergedPlayer :=
  rows.flatMap (fun r =>
    let ms := lookup.filter (fun l =>
      l.season == r.season && l.week == r.week && l.team_code == r.recent_team)
    if ms.isEmpty then [{ out := r, game_id := none, team_code := none, points := none }]
    else ms.map (fun l =>
      { out := r, game_id := some l.game_id, team_code := some l.team_code, points := l.points }))

/-- The payload row kept for one merged row that resolved a game: the
`fumbles` column is `fumbles_total.fillna(0)` (already NaN-free here). -/
def build_payload_rec (g : String) (m : MergedPlayer) : PayloadRow :=
  { out := m.out, game_id := g, team_code := m.team_code.getD "",
    points := m.points, fumbles := m.out.fumbles_total }

/-- Translation of `_prepare_player_payload` (lines 503-512): merge, drop
rows with no resolved game, set `fumbles = fumbles_total.fillna(0)`. -/
def prepare_player_payload (rows : List OutRow) (lookup : List LookupRec) :
    List PayloadRow :=
  (merge_player rows lookup).filterMap (fun m =>
    match m.game_id with
    | none => none
    | some g => some (build_payload_rec g m))

/-- Python truthiness on a string cell: `row.position if row.position else
None` maps the empty string to `None`. -/
def py_truthy_str (v : SVal) : Option String :=
  match v with
  | none => none
  | some "" => none
  | some s => some s

/-- One record of the `_upsert_player_stats` payload (the dict at lines
521-547). -/
structure PlayerRec where
  game_key : String
  season : ℤ
  week : ℤ
  team_code : String
  player_gsis : String
  position : Option String
  pass_att : Option ℚ
  pass_cmp : Option ℚ
  pass_yds : Option ℚ
  pass_td : Option ℚ
  int_thrown : Option ℚ
  rush_att : Option ℚ
  rush_yds : Option ℚ
  rush_td : Option ℚ
  targets : Option ℚ
  receptions : Option ℚ
  rec_yds : Option ℚ
  rec_td : Option ℚ
  tackles : Option ℚ
  sacks : Option ℚ
  interceptions : Option ℚ
  fumbles : Option ℚ
  fantasy_ppr : Option ℚ
deriving DecidableEq

/-- The record built for one payload row (lines 521-547): every numeric
box-score field goes through `_nullable`; `tackles` and `interceptions` are
the literal `None`. -/
def build_player_rec (r : PayloadRow) : PlayerRec :=
  { game_key := r.game_id
    season := r.out.season
    week := r.out.week
    team_code := r.out.recent_team
    player_gsis := r.out.player_id
    position := py_truthy_str r.out.position
    pass_att := nullable r.out.attempts
    pass_cmp := nullable r.out.completions
    pass_yds := nullable r.out.passing_yards
    pass_td := nullable r.out.passing_tds
    int_thrown := nullable r.out.interceptions
    rush_att := nullable r.out.carries
    rush_yds := nullable r.out.rushing_yards
    rush_td := nullable r.out.rushing_tds
    targets := nullable r.out.targets
    receptions := nullable r.out.receptions
    rec_yds := nullable r.out.receiving_yards
    rec_td := nullable r.out.receiving_tds
    tackles := none
    sacks := nullable (some r.out.sacks)
    interceptions := none
    fumbles := nullable (some r.fumbles)
    fantasy_ppr := nullable r.out.fantasy_points_ppr }

/-- The full record list of `_upsert_player_stats` (lines 519-547). -/
def player_records (payload : List PayloadRow) : List PlayerRec :=
  payload.map build_player_rec

/-! ### The upsert engine

The SQL `INSERT ... SELECT ... ON CONFLICT ... DO UPDATE` statements are
modelled as state transformers over key-value stores. Natural-key resolution
(the `JOIN`s against `games`, `teams`, `seasons`, `weeks`, `players`) is an
environment of partial functions; a record whose keys do not all resolve
inserts nothing, exactly as the `SELECT` returns no row. -/

/-- Natural-key resolution environment (the current contents of the `games`,
`teams`, `weeks` and `players` tables). -/
structure DbEnv where
  game_of : String → Option ℤ
  team_of : String → Option ℤ
  week_of : ℤ → ℤ → Option ℤ
  player_of : String → Option ℤ

/-- The statistic columns of one `team_game_stats` row; the conflict policy
of `_upsert_team_stats` replaces all of them. -/
structure TeamStatsVals where
  points : Option ℤ
  yards : Option ℤ
  pass_yards : Option ℤ
  rush_yards : Option ℤ
  sacks_made : Option ℤ
  sacks_allowed : Option ℤ
  turnovers : Option ℤ
deriving DecidableEq

/-- The `team_game_stats` table, keyed by its unique (game_id, team_id). -/
def TeamDb := ℤ × ℤ → Option TeamStatsVals

/-- The statistic values carried by one team upsert record. -/
def team_vals (r : TeamRec) : TeamStatsVals :=
  { points := r.points, yards := r.yards, pass_yards := r.pass_yards,
    rush_yards := r.rush_yards, sacks_made := r.sacks_made,
    sacks_allowed := r.sacks_allowed, turnovers := r.turnovers }

/-- The (game_id, team_id) conflict key of a team record, resolved through
`games.nflfast_game_id` and `teams.team_code`; `none` when the SELECT joins
produce no row. -/
def team_key (env : DbEnv) (r : TeamRec) : Option (ℤ × ℤ) :=
  match env.game_of r.game_key, env.team_of r.team_code with
  | some g, some t => some (g, t)
  | _, _ => none

/-- Executing one team upsert record: insert-or-replace at the conflict key
(the `DO UPDATE SET` of `_upsert_team_stats` overwrites every statistic
column), no-op when the key does not resolve. -/
def apply_team (env : DbEnv) (db : TeamDb) (r : TeamRec) : TeamDb :=
  match team_key env r with
  | none => db
  | some k => fun k' => if k' = k then some (team_vals r) else db k'

/-- Executing the whole record batch of `_upsert_team_stats` in order. -/
def upsert_team_stats (env : DbEnv) (rs : List TeamRec) (db : TeamDb) : TeamDb :=
  rs.foldl (apply_team env) db

/-- The `player_game_stats` columns that the `ON CONFLICT (game_id, player_id)
DO UPDATE SET` clause of `_upsert_player_stats` replaces on every write. -/
structure PlayerUpd where
  position : Option String
  pass_att : Option ℚ
  pass_cmp : Option ℚ
  pass_yds : Option ℚ
  pass_td : Option ℚ
  int_thrown : Option ℚ
  rush_att : Option ℚ
  rush_yds : Option ℚ
  rush_td : Option ℚ
  targets : Option ℚ
  receptions : Option ℚ
  rec_yds : Option ℚ
  rec_td : Option ℚ
  sacks : Option ℚ
  fumbles : Option ℚ
  fantasy_ppr : Option ℚ
deriving DecidableEq

/-- The `player_game_stats` columns that are set at insert time but NOT
listed in the `DO UPDATE SET` clause: they keep their stored value on
conflict. (`starter` and the three snap counts are inserted as literal NULL;
`tackles` and `interceptions` are always `None` in the record.) -/
structure PlayerFixed where
  team_id : ℤ
  week_id : ℤ
  starter : Option ℚ
  snaps_off : Option ℚ
  snaps_def : Option ℚ
  snaps_st : Option ℚ
  tackles : Option ℚ
  interceptions : Option ℚ
deriving DecidableEq

/-- One stored `player_game_stats` row. -/
structure PlayerRow where
  fixed : PlayerFixed
  upd : PlayerUpd
deriving DecidableEq

/-- The `player_game_stats` table, keyed by its unique (game_id, player_id). -/
def PlayerDb := ℤ × ℤ → Option PlayerRow

/-- The replaced-on-conflict columns carried by one player record. -/
def player_upd (r : PlayerRec) : PlayerUpd :=
  { position := r.position, pass_att := r.pass_att, pass_cmp := r.pass_cmp,
    pass_yds := r.pass_yds, pass_td := r.pass_td, int_thrown := r.int_thrown,
    rush_att := r.rush_att, rush_yds := r.rush_yds, rush_td := r.rush_td,
    targets := r.targets, receptions := r.receptions, rec_yds := r.rec_yds,
    rec_td := r.rec_td, sacks := r.sacks, fumbles := r.fumbles,
    fantasy_ppr := r.fantasy_ppr }

/-- The conflict key and insert-only columns of a player record, resolved
through the four natural-key joins of the SELECT; `none` when any join
fails (the row is silently skipped). -/
def player_key (env : DbEnv) (r : PlayerRec) :
    Option ((ℤ × ℤ) × PlayerFixed) :=
  match env.game_of r.game_key, env.player_of r.player_gsis,
      env.team_of r.team_code, env.week_of r.season r.week with
  | some g, some p, some t, some w =>
      some ((g, p),
        { team_id := t, week_id := w, starter := none, snaps_off := none,
          snaps_def := none, snaps_st := none, tackles := r.tackles,
          interceptions := r.interceptions })
  | _, _, _, _ => none

/-- Executing one player upsert record: insert the full row when the key is
free, else replace only the `DO UPDATE SET` columns, keeping the stored
insert-only columns. No-op when a join fails. -/
def apply_player (env : DbEnv) (db : PlayerDb) (r : PlayerRec) : PlayerDb :=
  match player_key env r with
  | none => db
  | some (k, fx) => fun k' =>
      if k' = k then
        some (match db k with
          | none => { fixed := fx, upd := player_upd r }
          | some old => { fixed := old.fixed, upd := player_upd r })
      else db k'

/-- Executing the whole record batch of `_upsert_player_stats` in order. -/
def upsert_player_stats (env : DbEnv) (rs : List PlayerRec) (db : PlayerDb) :
    PlayerDb :=
  rs.foldl (apply_player env) db

/-! ### Helper lemmas about the upsert state machines -/

/-- The value left at one key by a sequence of replace-style writes. -/
def last_write {α β : Type} (p : α → Bool) (v : α → β) (b : β) (rs : List α) : β :=
  rs.foldl (fun acc r => if p r then v r else acc) b

theorem last_write_of_none {α β : Type} (p : α → Bool) (v : α → β) (b : β)
    (rs : List α) (h : rs.any p = false) : last_write p v b rs = b := by
  induction rs generalizing b with
  | nil => rfl
  | cons r t ih =>
      simp only [List.any_cons, Bool.or_eq_false_iff] at h
      show last_write p v (if p r then v r else b) t = b
      rw [h.1]
      simpa using ih b h.2

theorem last_write_init {α β : Type} (p : α → Bool) (v : α → β)
    (rs : List α) (h : rs.any p = true) (b b' : β) :
    last_write p v b rs = last_write p v b' rs := by
  induction rs generalizing b b' with
  | nil => simp at h
  | cons r t ih =>
      show last_write p v (if p r then v r else b) t
        = last_write p v (if p r then v r else b') t
      cases hp : p r with
      | true => simp [hp]
      | false =>
          simp only [List.any_cons, hp, Bool.false_or] at h
          simp only [hp, Bool.false_eq_true, if_false]
          exact ih h b b'

theorem last_write_idem {α β : Type} (p : α → Bool) (v : α → β) (b : β)
    (rs : List α) :
    last_write p v (last_write p v b rs) rs = last_write p v b rs := by
  cases h : rs.any p with
  | true => exact last_write_init p v rs h _ _
  | false => rw [last_write_of_none p v _ rs h, last_write_of_none p v _ rs h]

theorem apply_team_at (env : DbEnv) (db : TeamDb) (r : TeamRec) (k : ℤ × ℤ) :
    apply_team env db r k
      = if team_key env r == some k then some (team_vals r) else db k := by
  unfold apply_team
  cases h : team_key env r with
  | none => rfl
  | some k0 =>
      by_cases hk : k = k0
      · subst hk; simp
      · simp [hk, Ne.symm hk]

theorem upsert_team_lookup (env : DbEnv) (rs : List TeamRec) (db : TeamDb)
    (k : ℤ × ℤ) :
    upsert_team_stats env rs db k
      = last_write (fun r => team_key env r == some k)
          (fun r => some (team_vals r)) (db k) rs := by
  induction rs generalizing db with
  | nil => rfl
  | cons r t ih =>
      show upsert_team_stats env t (apply_team env db r) k = _
      rw [ih]
      show _ = last_write _ _
        (if team_key env r == some k then some (team_vals r) else db k) t
      rw [apply_team_at]

theorem upsert_team_stats_idem (env : DbEnv) (rs : List TeamRec) (db : TeamDb) :
    upsert_team_stats env rs (upsert_team_stats env rs db)
      = upsert_team_stats env rs db := by
  funext k
  rw [upsert_team_lookup, upsert_team_lookup]
  exact last_write_idem _ _ _ _

/-- One write against a `player_game_stats` row: a fresh insert takes the
insert-only columns of the record, a conflicting write keeps the stored ones;
the updatable columns are replaced either way. -/
def pstep (b : Option PlayerRow) (t : PlayerFixed × PlayerUpd) : Option PlayerRow :=
  some (match b with
    | none => { fixed := t.1, upd := t.2 }
    | some o => { fixed := o.fixed, upd := t.2 })

/-- The successive writes hitting one key. -/
def player_chain (b : Option PlayerRow) (l : List (PlayerFixed × PlayerUpd)) :
    Option PlayerRow :=
  l.foldl pstep b

/-- The writes of a record batch that hit the key `k`, in batch order. -/
def writes_at (env : DbEnv) (rs : List PlayerRec) (k : ℤ × ℤ) :
    List (PlayerFixed × PlayerUpd) :=
  rs.filterMap (fun r =>
    match player_key env r with
    | some (k0, fx) => if k0 = k then some (fx, player_upd r) else none
    | none => none)

theorem apply_player_at (env : DbEnv) (db : PlayerDb) (r : PlayerRec)
    (k : ℤ × ℤ) :
    apply_player env db r k
      = match player_key env r with
        | some (k0, fx) =>
            if k0 = k then pstep (db k) (fx, player_upd r) else db k
        | none => db k := by
  unfold apply_player
  cases h : player_key env r with
  | none => simp
  | some kf =>
      obtain ⟨k0, fx⟩ := kf
      by_cases hk : k0 = k
      · subst hk; simp [pstep]
      · simp [Ne.symm hk, hk]

theorem upsert_player_lookup (env : DbEnv) (rs : List PlayerRec)
    (db : PlayerDb) (k : ℤ × ℤ) :
    upsert_player_stats env rs db k = player_chain (db k) (writes_at env rs k) := by
  induction rs generalizing db with
  | nil => rfl
  | cons r t ih =>
      show upsert_player_stats env t (apply_player env db r) k = _
      rw [ih]
      have hw : writes_at env (r :: t) k
          = (match player_key env r with
             | some (k0, fx) =>
                 if k0 = k then (fx, player_upd r) :: writes_at env t k
                 else writes_at env t k
             | none => writes_at env t k) := by
        unfold writes_at
        cases h : player_key env r with
        | none => simp [List.filterMap_cons, h]
        | some kf =>
            obtain ⟨k0, fx⟩ := kf
            by_cases hk : k0 = k <;> simp [List.filterMap_cons, h, hk]
      rw [hw, apply_player_at]
      cases h : player_key env r with
      | none => rfl
      | some kf =>
          obtain ⟨k0, fx⟩ := kf
          by_cases hk : k0 = k

          · simp only [hk, if_pos rfl]
            rfl
          · simp only [if_neg hk]

theorem player_chain_some (l : List (PlayerFixed × PlayerUpd)) (o : PlayerRow) :
    player_chain (some o) l
      = some { fixed := o.fixed, upd := l.foldl (fun _ t => t.2) o.upd } := by
  induction l generalizing o with
  | nil => rfl
  | cons t l ih =>
      show player_chain (pstep (some o) t) l = _
      rw [show pstep (some o) t = some { fixed := o.fixed, upd := t.2 } from rfl]
      rw [ih]
      rfl

theorem player_chain_idem (l : List (PlayerFixed × PlayerUpd))
    (b : Option PlayerRow) :
    player_chain (player_chain b l) l = player_chain b l := by
  cases l with
  | nil => rfl
  | cons t l' =>
      have h1 : player_chain b (t :: l') = player_chain (pstep b t) l' := rfl
      have hupd : ∃ fx, pstep b t = some { fixed := fx, upd := t.2 } := by
        cases b with
        | none => exact ⟨t.1, rfl⟩
        | some o => exact ⟨o.fixed, rfl⟩
      obtain ⟨fx, hfx⟩ := hupd
      rw [h1, hfx, player_chain_some]
      show player_chain (pstep _ t) l' = _
      rw [show pstep (some { fixed := fx, upd := l'.foldl (fun _ t => t.2) t.2 })
            t = some { fixed := fx, upd := t.2 } from rfl]
      rw [player_chain_some]

theorem upsert_player_stats_idem (env : DbEnv) (rs : List PlayerRec)
    (db : PlayerDb) :
    upsert_player_stats env rs (upsert_player_stats env rs db)
      = upsert_player_stats env rs db := by
  funext k
  rw [upsert_player_lookup, upsert_player_lookup]
  exact player_chain_idem _ _

/-! ### Helper lemmas about the normalizer -/

/-- The turnover formula as the specification phrases it: interceptions
(counted only for a quarterback row), plus the three fumble-lost columns,
each treated as zero when the column is absent or the value is NaN. Stated
as a flat four-term sum, to be compared against the column-wise computation
of `_clean_weekly_frame`. -/
def spec_turnovers (f : Frame) (r : InRow) : ℚ :=
  (if r.position_group = some "QB" then fillna0 (resolved_interceptions f r) else 0)
    + (if f.cols.rushing_fumbles_lost then fillna0 r.rushing_fumbles_lost else 0)
    + (if f.cols.receiving_fumbles_lost then fillna0 r.receiving_fumbles_lost else 0)
    + (if f.cols.sack_fumbles_lost then fillna0 r.sack_fumbles_lost else 0)

theorem turnovers_of_eq_spec (f : Frame) (r : InRow) :
    turnovers_of f r = spec_turnovers f r := by
  unfold turnovers_of spec_turnovers fumbles_total_of
  ring

theorem coerce_rows_length {l : List InRow} {l' : List (InRow × ℤ × ℤ)}
    (h : coerce_rows l = Except.ok l') : l'.length = l.length := by
  induction l generalizing l' with
  | nil =>
      unfold coerce_rows at h
      cases h
      rfl
  | cons r t ih =>
      unfold coerce_rows at h
      split at h
      · next s w rest hs hw hrest =>
          cases h
          simp [ih hrest]
      · cases h
      · cases h
      · cases h

theorem kept_rows_length_le {f : Frame} {tw : Option (List ℤ)}
    {kept : List (InRow × ℤ × ℤ)} (h : kept_rows f tw = Except.ok kept) :
    kept.length ≤ f.rows.length := by
  unfold kept_rows at h
  cases hc : coerce_rows (f.rows.filter (keeps f)) with
  | error e => rw [hc] at h; cases h
  | ok coerced =>
      rw [hc] at h
      have hlen : coerced.length ≤ f.rows.length := by
        rw [coerce_rows_length hc]
        exact List.length_filter_le _ _
      cases tw with
      | none => cases h; exact hlen
      | some ws =>
          cases h
          exact le_trans (List.length_filter_le _ _) hlen

theorem map_zip_fst {α β γ : Type} (g : α → γ) :
    ∀ (as : List α) (bs : List β), as.length ≤ bs.length →
      (as.zip bs).map (fun p => g p.1) = as.map g := by
  intro as
  induction as with
  | nil => intro bs h; rfl
  | cons a t ih =>
      intro bs h
      cases bs with
      | nil => simp at h
      | cons b bt =>
          simp only [List.zip_cons_cons, List.map_cons]
          rw [ih bt (by simpa using h)]

/-! ### Rounding and digit-string lemmas -/

theorem pyRound_nearest (q : ℚ) : |((pyRound q : ℤ) : ℚ) - q| ≤ 1/2 := by
  have h0 : ((⌊q⌋ : ℤ) : ℚ) ≤ q := Int.floor_le q
  have h1 : q < ⌊q⌋ + 1 := Int.lt_floor_add_one q
  unfold pyRound
  split_ifs with hc1 hc2 hc3
  · rw [abs_le]
    constructor <;> linarith
  · rw [abs_le]
    push_cast
    constructor <;> linarith
  · rw [abs_le]
    have h2 := le_of_not_lt hc1
    have h3 := le_of_not_lt hc2
    constructor <;> linarith
  · rw [abs_le]
    have h2 := le_of_not_lt hc1
    have h3 := le_of_not_lt hc2
    push_cast
    constructor <;> linarith

theorem pyRound_tie_even (q : ℚ) (h : q - ⌊q⌋ = 1/2) : Even (pyRound q) := by
  unfold pyRound
  rw [h]
  simp only [lt_self_iff_false, if_false]
  by_cases he : ⌊q⌋ % 2 = 0
  · rw [if_pos he]
    exact Int.even_iff.mpr he
  · rw [if_neg he]
    exact Int.even_add_one.mpr (fun hev => he (Int.even_iff.mp hev))

theorem char_of_digit_isDigit {d : ℕ} (hd : d < 10) :
    (Char.ofNat (48 + d)).isDigit = true := by
  interval_cases d <;> decide

theorem pyIsDigit_pyStrNat (n : ℕ) : pyIsDigit (pyStrNat n) = true := by
  unfold pyStrNat
  by_cases h : n = 0
  · rw [if_pos h]; decide
  · rw [if_neg h]
    unfold pyIsDigit decChars
    rw [Bool.and_eq_true]
    constructor
    · have hne : Nat.digits 10 n ≠ [] := Nat.digits_ne_nil_iff_ne_zero.mpr h
      simp [String.length, bne_iff_ne, List.length_reverse]
      intro hcon
      exact hne (List.eq_nil_of_length_eq_zero (by simpa using List.length_eq_zero.mpr hcon))
    · rw [List.all_eq_true]
      intro c hc
      have : c ∈ (Nat.digits 10 n).reverse.map (fun d => Char.ofNat (48 + d)) := by
        simpa [String.data] using hc
      obtain ⟨d, hd, rfl⟩ := List.mem_map.mp this
      exact char_of_digit_isDigit
        (Nat.digits_lt_base (by norm_num) (List.mem_reverse.mp hd))

/-! ### Concrete example data (used by witnesses and evaluation theorems) -/

/-- An input row with every cell NaN. -/
def blankRow : InRow :=
  ⟨none, none, none, none, none, none, none, none, none, none, none, none, none,
   none, none, none, none, none, none, none, none, none, none, none, none, none, none⟩

/-- The column set of the primary provider schema: `recent_team`,
`interceptions`, `sacks` and `position_group` present. -/
def exCols : Cols :=
  { recent_team := true, team := false, interceptions := true,
    passing_interceptions := false, sacks := true, sacks_suffered := false,
    def_sacks := false, position_group := true, rushing_fumbles_lost := false,
    receiving_fumbles_lost := false, sack_fumbles_lost := false }

/-- A normalized quarterback row. -/
def exOutRow : OutRow :=
  { player_id := "QB1", recent_team := "KAN", season := 2023, week := 1,
    position_group := some "QB", position := some "QB", interceptions := some 1,
    sacks := 2, sacks_allowed := 2, def_sacks := 0, fumbles_total := 0,
    turnovers := 1, attempts := some 35, completions := some 24,
    passing_yards := some 280, passing_tds := some 3, carries := some 4,
    rushing_yards := some 32, rushing_tds := some 0, targets := none,
    receptions := none, receiving_yards := none, receiving_tds := none,
    fantasy_points_ppr := some 24 }

/-- A player payload row for the quarterback. -/
def exPayloadRow : PayloadRow :=
  { out := exOutRow, game_id := "2023_01_KAN_DET", team_code := "KAN",
    points := some 27, fumbles := 0 }

/-- An aggregated team row. -/
def exTeamAgg : TeamAgg :=
  { season := 2023, week := 1, team_code := "KAN", pass_yards := 280,
    rush_yards := 40, sacks_allowed := 2, sacks_made := 2, turnovers := 1,
    yards := 320 }

/-- A merged team row resolved against the schedule lookup. -/
def exMergedTeam : MergedTeam :=
  { t := exTeamAgg, game_id := some "2023_01_KAN_DET", points := some 27 }

/-- A schedule row for a finished week-1 game. -/
def exSchedRow : SchedRow :=
  { game_id := "2023_01_KAN_DET", season := 2023, week := .num 1,
    home_team := "KAN", away_team := "DET", home_score := some 27,
    away_score := some 21 }

/-! ### The claims -/

/-- C1: running the weekly-stats upsert twice with identical input leaves
`TeamGameStats` and `PlayerGameStats` in the same state as running it once:
the upserts keyed on (game, team) and (game, player) resolve conflicts by
replacement, so a second identical batch changes nothing (no duplicate rows,
no numeric accumulation). -/
theorem c1_weekly_upserts_idempotent (env : DbEnv) (ts : List TeamAgg)
    (rows : List OutRow) (lookup : List LookupRec) (dbT : TeamDb) (dbP : PlayerDb) :
    upsert_team_stats env (team_records ts lookup)
        (upsert_team_stats env (team_records ts lookup) dbT)
      = upsert_team_stats env (team_records ts lookup) dbT
  ∧ upsert_player_stats env (player_records (prepare_player_payload rows lookup))
        (upsert_player_stats env
          (player_records (prepare_player_payload rows lookup)) dbP)
      = upsert_player_stats env (player_records (prepare_player_payload rows lookup)) dbP :=
  ⟨upsert_team_stats_idem _ _ _, upsert_player_stats_idem _ _ _⟩

/-- C8: in player stats preparation, every numeric box-score field of a
matched row (pass attempts, completions, yards, touchdowns, interceptions
thrown, carries, targets, receptions, fumbles, fantasy points) is mapped
through the `_nullable` conversion when the upsert record is built, and
`_nullable` maps a NaN source to database NULL, never to zero. -/
theorem c8_player_record_nullable (r : PayloadRow) :
    (build_player_rec r).pass_att = nullable r.out.attempts
  ∧ (build_player_rec r).pass_cmp = nullable r.out.completions
  ∧ (build_player_rec r).pass_yds = nullable r.out.passing_yards
  ∧ (build_player_rec r).pass_td = nullable r.out.passing_tds
  ∧ (build_player_rec r).int_thrown = nullable r.out.interceptions
  ∧ (build_player_rec r).rush_att = nullable r.out.carries
  ∧ (build_player_rec r).rush_yds = nullable r.out.rushing_yards
  ∧ (build_player_rec r).rush_td = nullable r.out.rushing_tds
  ∧ (build_player_rec r).targets = nullable r.out.targets
  ∧ (build_player_rec r).receptions = nullable r.out.receptions
  ∧ (build_player_rec r).rec_yds = nullable r.out.receiving_yards
  ∧ (build_player_rec r).rec_td = nullable r.out.receiving_tds
  ∧ (build_player_rec r).fumbles = nullable (some r.fumbles)
  ∧ (build_player_rec r).fantasy_ppr = nullable r.out.fantasy_points_ppr
  ∧ (∀ v : Val, v = none → nullable v = none ∧ nullable v ≠ some 0) := by
  refine ⟨rfl, rfl, rfl, rfl, rfl, rfl, rfl, rfl, rfl, rfl, rfl, rfl, rfl, rfl, ?_⟩
  rintro v rfl
  exact ⟨rfl, by simp [nullable]⟩

theorem c8_player_record_nullable_witness :
    nullable (none : Val) = none ∧ nullable (none : Val) ≠ some 0 :=
  (c8_player_record_nullable
    exPayloadRow).2.2.2.2.2.2.2.2.2.2.2.2.2.2 none rfl

/-- C9: `_to_int` maps NaN to NULL and any other value to the integer nearest
to it, ties resolved to the even neighbour (Python round, banker's rounding,
so both 1.5 and 2.5 map to 2); every numeric column of a team upsert record,
including `sacks_made` and `sacks_allowed`, goes through `_to_int` and is
therefore stored as a rounded integer or NULL, never a fraction. -/
theorem c9_to_int_rounding (q : ℚ) (g : String) (m : MergedTeam) :
    to_int (none : Val) = none
  ∧ to_int (some q) = some (pyRound q)
  ∧ |((pyRound q : ℤ) : ℚ) - q| ≤ 1/2
  ∧ (q - ⌊q⌋ = 1/2 → Even (pyRound q))
  ∧ to_int (some (3/2 : ℚ)) = some 2
  ∧ to_int (some (5/2 : ℚ)) = some 2
  ∧ (build_team_rec g m).points = to_int m.points
  ∧ (build_team_rec g m).yards = to_int (some m.t.yards)
  ∧ (build_team_rec g m).pass_yards = to_int (some m.t.pass_yards)
  ∧ (build_team_rec g m).rush_yards = to_int (some m.t.rush_yards)
  ∧ (build_team_rec g m).sacks_made = to_int (some m.t.sacks_made)
  ∧ (build_team_rec g m).sacks_allowed = to_int (some m.t.sacks_allowed)
  ∧ (build_team_rec g m).turnovers = to_int (some m.t.turnovers) := by
  have h32 : (⌊(3/2 : ℚ)⌋ : ℤ) = 1 := by norm_num
  have h52 : (⌊(5/2 : ℚ)⌋ : ℤ) = 2 := by norm_num
  refine ⟨rfl, rfl, pyRound_nearest q, pyRound_tie_even q, ?_, ?_,
    rfl, rfl, rfl, rfl, rfl, rfl, rfl⟩
  · show some (pyRound (3/2 : ℚ)) = some 2
    unfold pyRound
    rw [h32]
    norm_num
  · show some (pyRound (5/2 : ℚ)) = some 2
    unfold pyRound
    rw [h52]
    norm_num

theorem c9_to_int_rounding_witness : pyRound (7/2 : ℚ) % 2 = 0 :=
  Int.even_iff.mp
    ((c9_to_int_rounding (7/2) "g" exMergedTeam).2.2.2.1 (by norm_num))

/-- C10: in `load_games`, the declared winner is the home team exactly when
both scores are present and the home score exceeds the away score, the away
team when both are present and the away score exceeds the home score, and no
winner is recorded when either score is missing or the scores are equal. -/
theorem c10_game_winner (r : SchedRow) :
    (∀ h a, r.home_score = some h → r.away_score = some a →
        (h > a → game_winner r = some r.home_team)
      ∧ (a > h → game_winner r = some r.away_team)
      ∧ (h = a → game_winner r = none))
  ∧ (r.home_score = none ∨ r.away_score = none → game_winner r = none) := by
  constructor
  · intro h a hh ha
    unfold game_winner
    rw [hh, ha]
    refine ⟨fun hgt => ?_, fun hgt => ?_, fun heq => ?_⟩
    · show (if h > a then some r.home_team
        else if a > h then some r.away_team else none) = some r.home_team
      rw [if_pos hgt]
    · show (if h > a then some r.home_team
        else if a > h then some r.away_team else none) = some r.away_team
      rw [if_neg (lt_asymm hgt), if_pos hgt]
    · subst heq
      show (if h > h then some r.home_team
        else if h > h then some r.away_team else none) = none
      simp
  · intro hcase
    rcases hcase with h | h
    · cases ha : r.away_score <;> simp [game_winner, h, ha]
    · cases hh : r.home_score <;> simp [game_winner, h, hh]

theorem c10_game_winner_witness : game_winner exSchedRow = some "KAN" :=
  ((c10_game_winner exSchedRow).1 27 21 rfl rfl).1 (by norm_num)

/-- C6: `_prepare_schedule_lookup` outputs exactly two records per game row
whose week value is a plain integer (one per team perspective, carrying the
game natural key, the week as an integer and that team's score with missing
scores mapped to None), and no record for a row whose week value is not a
plain integer. -/
theorem c6_schedule_lookup (rows : List SchedRow) :
    (prepare_schedule_lookup rows).length
        = 2 * (rows.filter (fun r => pyIsDigit (pyStr r.week))).length
  ∧ (∀ r ∈ rows, pyIsDigit (pyStr r.week) = true →
      ({ season := r.season, week := py_int_week r.week, team_code := r.home_team,
         game_id := r.game_id, points := na_to_none r.home_score } : LookupRec)
          ∈ prepare_schedule_lookup rows
      ∧ ({ season := r.season, week := py_int_week r.week, team_code := r.away_team,
           game_id := r.game_id, points := na_to_none r.away_score } : LookupRec)
          ∈ prepare_schedule_lookup rows)
  ∧ (∀ x ∈ prepare_schedule_lookup rows, ∃ r, r ∈ rows
      ∧ pyIsDigit (pyStr r.week) = true
      ∧ (x = { season := r.season, week := py_int_week r.week,
               team_code := r.home_team, game_id := r.game_id,
               points := na_to_none r.home_score }
        ∨ x = { season := r.season, week := py_int_week r.week,
                team_code := r.away_team, game_id := r.game_id,
                points := na_to_none r.away_score }))
  ∧ (∀ n : ℤ, 0 ≤ n → pyIsDigit (pyStr (WeekCell.num n)) = true)
  ∧ (∀ v : Val, v = none → na_to_none v = none) := by
  refine ⟨?_, ?_, ?_, ?_, ?_⟩
  · induction rows with
    | nil => rfl
    | cons r t ih =>
        unfold prepare_schedule_lookup at ih ⊢
        cases hd : pyIsDigit (pyStr r.week) <;>
          simp [List.flatMap_cons, hd, List.filter_cons, ih] <;> omega
  · intro r hr hd
    constructor <;>
      exact List.mem_flatMap.mpr ⟨r, hr, by rw [if_pos hd]; simp⟩
  · intro x hx
    obtain ⟨r, hr, hmem⟩ := List.mem_flatMap.mp hx
    cases hd : pyIsDigit (pyStr r.week) with
    | false =>
        rw [if_neg (by simp [hd])] at hmem
        cases hmem
    | true =>
        rw [if_pos hd] at hmem
        simp only [List.mem_cons, List.mem_singleton, List.not_mem_nil,
          or_false] at hmem
        exact ⟨r, hr, hd, hmem⟩
  · intro n hn
    show pyIsDigit (if n < 0 then "-" ++ pyStrNat n.natAbs else pyStrNat n.natAbs) = true
    rw [if_neg (not_lt.mpr hn)]
    exact pyIsDigit_pyStrNat _
  · rintro v rfl
    rfl

theorem c6_schedule_lookup_witness :
    ({ season := 2023, week := 1, team_code := "KAN",
       game_id := "2023_01_KAN_DET", points := some 27 } : LookupRec)
      ∈ prepare_schedule_lookup [exSchedRow] := by
  have hd := (c6_schedule_lookup [exSchedRow]).2.2.2.1 1 (by norm_num)
  exact ((c6_schedule_lookup [exSchedRow]).2.1 exSchedRow (by simp) hd).1

/-- Helper for C4: rows of the aggregated team frame with no matching lookup
record contribute no upsert record at all. -/
theorem team_records_filter_matched (ts : List TeamAgg) (lookup : List LookupRec) :
    team_records ts lookup
      = team_records (ts.filter (fun r =>
          !(lookup.filter (fun l => l.season == r.season && l.week == r.week
              && l.team_code == r.team_code)).isEmpty)) lookup := by
  induction ts with
  | nil => rfl
  | cons r t ih =>
      by_cases hempty : (lookup.filter (fun l => l.season == r.season
          && l.week == r.week && l.team_code == r.team_code)).isEmpty = true
      · simp only [team_records, merge_team, List.flatMap_cons, List.filter_cons,
          hempty, if_pos rfl, Bool.not_true, List.filterMap_append] at ih ⊢
        simpa [hempty] using ih
      · have hf : (lookup.filter (fun l => l.season == r.season
            && l.week == r.week && l.team_code == r.team_code)).isEmpty = false :=
          Bool.not_eq_true _ ▸ Bool.of_not_eq_true hempty
        simp only [team_records, merge_team, List.flatMap_cons, List.filter_cons,
          hf, Bool.not_false, Bool.false_eq_true, if_false, eq_self_iff_true,
          if_true, List.filterMap_append] at ih ⊢
        rw [ih]

/-- C4: a stats record reaches `TeamGameStats` or `PlayerGameStats` only for a
(season, week, team) triple matching a schedule lookup entry: in both
`_upsert_team_stats` and `_prepare_player_payload` every row whose left merge
resolves no `game_id` is removed before any record is built, without error,
and no partial record for such a row survives. -/
theorem c4_unresolved_rows_dropped :
    (∀ (ts : List TeamAgg) (lookup : List LookupRec) (rec : TeamRec),
      rec ∈ team_records ts lookup → ∃ l, l ∈ lookup
        ∧ rec.game_key = l.game_id ∧ rec.season = l.season
        ∧ rec.week = l.week ∧ rec.team_code = l.team_code)
  ∧ (∀ (ts : List TeamAgg) (lookup : List LookupRec),
      team_records ts lookup
        = team_records (ts.filter (fun r =>
            !(lookup.filter (fun l => l.season == r.season && l.week == r.week
                && l.team_code == r.team_code)).isEmpty)) lookup)
  ∧ (∀ (rows : List OutRow) (lookup : List LookupRec) (p : PayloadRow),
      p ∈ prepare_player_payload rows lookup → ∃ l, l ∈ lookup
        ∧ p.game_id = l.game_id ∧ p.out.season = l.season
        ∧ p.out.week = l.week ∧ p.out.recent_team = l.team_code) := by
  refine ⟨?_, team_records_filter_matched, ?_⟩
  · intro ts lookup rec hrec
    obtain ⟨m, hm, hmatch⟩ := List.mem_filterMap.mp hrec
    cases hg : m.game_id with
    | none => rw [hg] at hmatch; cases hmatch
    | some g =>
        rw [hg] at hmatch
        have hrec' : rec = build_team_rec g m := by cases hmatch; rfl
        obtain ⟨r, hr, hmm⟩ := List.mem_flatMap.mp hm
        by_cases hempty : (lookup.filter (fun l => l.season == r.season
            && l.week == r.week && l.team_code == r.team_code)).isEmpty = true
        · rw [if_pos hempty] at hmm
          simp only [List.mem_singleton] at hmm
          rw [hmm] at hg
          cases hg
        · rw [if_neg hempty] at hmm
          obtain ⟨l, hl, hml⟩ := List.mem_map.mp hmm
          obtain ⟨hlmem, hlcond⟩ := List.mem_filter.mp hl
          simp only [Bool.and_eq_true, beq_iff_eq] at hlcond
          obtain ⟨⟨hse, hwk⟩, htc⟩ := hlcond
          have hmg : m.game_id = some l.game_id := by rw [← hml]
          have hgl : g = l.game_id := by
            rw [hmg] at hg
            cases hg
            rfl
          exact ⟨l, hlmem, by rw [hrec', build_team_rec, hgl],
            by rw [hrec', build_team_rec, ← hml, hse],
            by rw [hrec', build_team_rec, ← hml, hwk],
            by rw [hrec', build_team_rec, ← hml, htc]⟩
  · intro rows lookup p hp
    obtain ⟨m, hm, hmatch⟩ := List.mem_filterMap.mp hp
    cases hg : m.game_id with
    | none => rw [hg] at hmatch; cases hmatch
    | some g =>
        rw [hg] at hmatch
        have hp' : p = build_payload_rec g m := by
          cases hmatch; rfl
        obtain ⟨r, hr, hmm⟩ := List.mem_flatMap.mp hm
        by_cases hempty : (lookup.filter (fun l => l.season == r.season
            && l.week == r.week && l.team_code == r.recent_team)).isEmpty = true
        · rw [if_pos hempty] at hmm
          simp only [List.mem_singleton] at hmm
          rw [hmm] at hg
          cases hg
        · rw [if_neg hempty] at hmm
          obtain ⟨l, hl, hml⟩ := List.mem_map.mp hmm
          obtain ⟨hlmem, hlcond⟩ := List.mem_filter.mp hl
          simp only [Bool.and_eq_true, beq_iff_eq] at hlcond
          obtain ⟨⟨hse, hwk⟩, htc⟩ := hlcond
          have hmg : m.game_id = some l.game_id := by rw [← hml]
          have hgl : g = l.game_id := by
            rw [hmg] at hg
            cases hg
            rfl
          exact ⟨l, hlmem, by rw [hp', build_payload_rec, hgl],
            by rw [hp', build_payload_rec, ← hml, hse],
            by rw [hp', build_payload_rec, ← hml, hwk],
            by rw [hp', build_payload_rec, ← hml, htc]⟩

/-- A lookup record matching `exTeamAgg`. -/
def exLookupRec : LookupRec :=
  { season := 2023, week := 1, team_code := "KAN",
    game_id := "2023_01_KAN_DET", points := some 27 }

theorem c4_unresolved_rows_dropped_witness :
    (build_team_rec "2023_01_KAN_DET" exMergedTeam).game_key = exLookupRec.game_id
  ∧ (build_team_rec "2023_01_KAN_DET" exMergedTeam).season = exLookupRec.season
  ∧ (build_team_rec "2023_01_KAN_DET" exMergedTeam).week = exLookupRec.week
  ∧ (build_team_rec "2023_01_KAN_DET" exMergedTeam).team_code
      = exLookupRec.team_code := by
  have hmem : build_team_rec "2023_01_KAN_DET" exMergedTeam
      ∈ team_records [exTeamAgg] [exLookupRec] := by
    have hteam : team_records [exTeamAgg] [exLookupRec]
        = [build_team_rec "2023_01_KAN_DET" exMergedTeam] := by
      norm_num [team_records, merge_team, exTeamAgg, exLookupRec, exMergedTeam,
        List.filter_cons, List.filter_nil]
      rfl
    rw [hteam]
    exact List.mem_singleton.mpr rfl
  obtain ⟨l, hl, h1, h2, h3, h4⟩ :=
    c4_unresolved_rows_dropped.1 [exTeamAgg] [exLookupRec] _ hmem
  have hle : l = exLookupRec := by simpa using hl
  subst hle
  exact ⟨h1, h2, h3, h4⟩

/-! ### Frames exercising the index misalignment of lines 372-375 -/

/-- A row dropped by the blank player-id filter; its quarterback sack value
is 5. -/
def c2row0 : InRow :=
  { blankRow with
    player_id := some ""
    recent_team := some "KAN"
    season := some 2023
    week := some 1
    position_group := some "QB"
    sacks := some 5 }

/-- A surviving quarterback row with `sacks = 2`. -/
def c2row1 : InRow :=
  { blankRow with
    player_id := some "QB1"
    recent_team := some "KAN"
    season := some 2023
    week := some 1
    position_group := some "QB"
    sacks := some 2 }

/-- A frame whose first row is dropped (blank player id) and whose second row
is a quarterback with two sacks suffered. -/
def c2frame : Frame := { cols := exCols, rows := [c2row0, c2row1] }

/-- C2: the claim states that a QB row with `sacks = 2` yields
`sacks_allowed = 2` and `def_sacks = 0` in its own output row. The code
violates this: lines 374-375 assign series carrying the pre-filter index to
the filtered, reindexed frame, so after the blank-id row is dropped the
surviving quarterback (raw `sacks = 2`, visible in the rebuilt `sacks`
column) receives `sacks_allowed = 5`, the masked value of the DROPPED first
row. -/
theorem c2_sack_misalignment_eval :
    (clean_weekly_frame c2frame none).map
        (List.map (fun r => (r.player_id, r.sacks, r.sacks_allowed, r.def_sacks)))
      = Except.ok [("QB1", (2 : ℚ), 5, 0)] := by
  have hkept : kept_rows c2frame none = Except.ok [(c2row1, 2023, 1)] := by
    norm_num [kept_rows, coerce_rows, keeps, resolved_team, c2frame, exCols,
      c2row0, c2row1, blankRow, py_int_cell, py_trunc, Int.floor_ofNat,
      Int.floor_one]
  unfold clean_weekly_frame
  rw [hkept]
  norm_num [c2frame, exCols, c2row0, c2row1, blankRow, sacks_col,
    qb_mask, defender_mask, pg_filled, qb_sacks_values, defender_sacks_values,
    qb_sacks_source, defender_sacks_source, sacks_allowed_series,
    def_sacks_series, fillna0, Except.map, List.map_cons, List.map_nil]
  all_goals decide

/-- A multi-team (`"TOT"`) row that the filter drops; its quarterback sack
value is 4 and its passing yards 100. -/
def c5row0 : InRow :=
  { blankRow with
    player_id := some "RB0"
    recent_team := some "TOT"
    season := some 2023
    week := some 1
    position_group := some "QB"
    sacks := some 4
    interceptions := some 0
    passing_yards := some 100 }

/-- A surviving quarterback row: 2 sacks suffered, 1 interception, 250
passing yards. -/
def c5row1 : InRow :=
  { blankRow with
    player_id := some "QB1"
    recent_team := some "KAN"
    season := some 2023
    week := some 1
    position_group := some "QB"
    sacks := some 2
    interceptions := some 1
    passing_yards := some 250 }

/-- A frame whose first row carries the multi-team marker. -/
def c5frame : Frame := { cols := exCols, rows := [c5row0, c5row1] }

/-- The single aggregated team row the code produces for `c5frame`: its
`sacks_allowed` sum is 4, the sack value of the DROPPED `"TOT"` row, not the
surviving quarterback's 2. -/
def c5agg : TeamAgg :=
  { season := 2023, week := 1, team_code := "KAN", pass_yards := 250,
    rush_yards := 0, sacks_allowed := 4, sacks_made := 0, turnovers := 1,
    yards := 250 }

/-- C5: the claim states that dropped rows (here the `"TOT"` row) contribute
to no downstream aggregate. The code violates this: through the index
misalignment of lines 372-375 the surviving quarterback inherits the dropped
row's masked sack value (4 instead of its own 2), and `_aggregate_team_stats`
then sums it into the team's `sacks_allowed`. The row-filtering part of the
claim does hold: only the `"KAN"` row survives, with coerced identity. -/
theorem c5_dropped_row_leaks_into_aggregate :
    (clean_weekly_frame c5frame none).map aggregate_team_stats
      = Except.ok [c5agg] := by
  have hkept : kept_rows c5frame none = Except.ok [(c5row1, 2023, 1)] := by
    norm_num [kept_rows, coerce_rows, keeps, resolved_team, c5frame, exCols,
      c5row0, c5row1, blankRow, py_int_cell, py_trunc, Int.floor_ofNat,
      Int.floor_one]
  unfold clean_weekly_frame
  rw [hkept]
  norm_num [c5frame, exCols, c5row0, c5row1, blankRow, sacks_col,
    qb_mask, defender_mask, pg_filled, qb_sacks_values, defender_sacks_values,
    qb_sacks_source, defender_sacks_source, sacks_allowed_series,
    def_sacks_series, fillna0, aggregate_team_stats, dedup_keys, group_sum,
    List.insertionSort, List.orderedInsert, resolved_interceptions,
    resolved_team, turnovers_of, fumbles_total_of, c5agg, Except.map,
    List.map_cons, List.map_nil, List.filter_cons, List.filter_nil]
  all_goals decide

/-- A well-formed quarterback row for the position-group experiment. -/
def c7row : InRow :=
  { blankRow with
    player_id := some "QB1"
    recent_team := some "KAN"
    season := some 2023
    week := some 1
    position_group := some "QB"
    sacks := some 2 }

/-- The provider schema without a `position_group` column. -/
def c7cols : Cols := { exCols with position_group := false }

/-- C7: the claim states that with at least one team column present no input
makes the normalizer fail. The code violates this: lines 345-348 deliberately
substitute an all-empty series when `position_group` is absent, but line 383
indexes `df["position_group"]` directly, so a frame with `recent_team`
present and no `position_group` column raises KeyError. The same frame with
the column present succeeds. -/
theorem c7_missing_position_group_fails :
    (clean_weekly_frame { cols := c7cols, rows := [c7row] } none).toOption = none
  ∧ (clean_weekly_frame { cols := exCols, rows := [c7row] } none).toOption.isSome
      = true := by
  have hkept1 : kept_rows { cols := c7cols, rows := [c7row] } none
      = Except.ok [(c7row, 2023, 1)] := by
    norm_num [kept_rows, coerce_rows, keeps, resolved_team, c7cols, exCols,
      c7row, blankRow, py_int_cell, py_trunc, Int.floor_ofNat, Int.floor_one]
  have hkept2 : kept_rows { cols := exCols, rows := [c7row] } none
      = Except.ok [(c7row, 2023, 1)] := by
    norm_num [kept_rows, coerce_rows, keeps, resolved_team, c7cols, exCols,
      c7row, blankRow, py_int_cell, py_trunc, Int.floor_ofNat, Int.floor_one]
  constructor
  · unfold clean_weekly_frame
    rw [hkept1]
    norm_num [c7cols, exCols, Except.toOption]
  · unfold clean_weekly_frame
    rw [hkept2]
    norm_num [c7cols, exCols, Except.toOption]

/-- C3: for every surviving row, the output `turnovers` equals the resolved
interceptions value (NaN treated as zero) when the row's raw `position_group`
is `"QB"` and zero otherwise, plus the sum of the three fumble-lost columns,
each treated as zero when absent or NaN. Unlike the sack columns, `turnovers`
is computed on the filtered frame, so it is aligned with the row itself. -/
theorem c3_turnovers (f : Frame) (tw : Option (List ℤ))
    (kept : List (InRow × ℤ × ℤ)) (out : List OutRow)
    (hk : kept_rows f tw = Except.ok kept)
    (h : clean_weekly_frame f tw = Except.ok out) :
    out.map (fun r => r.turnovers) = kept.map (fun t => spec_turnovers f t.1) := by
  unfold clean_weekly_frame at h
  split at h
  · cases h
  · split at h
    · cases h
    · rename_i survivors heq
      split at h
      · cases h
      · injection h with h3
        rw [hk] at heq
        injection heq with heq2
        subst heq2
        have hlen : kept.length ≤ (f.rows.take kept.length).length := by
          rw [List.length_take]
          exact le_min le_rfl (kept_rows_length_le hk)
        calc out.map (fun r => r.turnovers)
            = (kept.zip (f.rows.take kept.length)).map
                (fun p => turnovers_of f p.1.1) := by
              rw [← h3, List.map_map]
              rfl
          _ = kept.map (fun t => turnovers_of f t.1) :=
              map_zip_fst (fun t => turnovers_of f t.1) kept _ hlen
          _ = kept.map (fun t => spec_turnovers f t.1) := by
              simp only [turnovers_of_eq_spec]

/-- A schema that also carries the `rushing_fumbles_lost` column. -/
def c3cols : Cols := { exCols with rushing_fumbles_lost := true }

/-- A quarterback with one interception and no lost fumble. -/
def c3row0 : InRow :=
  { blankRow with
    player_id := some "QB1"
    recent_team := some "KAN"
    season := some 2023
    week := some 1
    position_group := some "QB"
    sacks := some 2
    interceptions := some 1
    rushing_fumbles_lost := some 0 }

/-- A receiver with one interception cell (which must not count) and one lost
fumble. -/
def c3row1 : InRow :=
  { blankRow with
    player_id := some "WR1"
    recent_team := some "KAN"
    season := some 2023
    week := some 1
    position_group := some "WR"
    sacks := some 0
    interceptions := some 1
    rushing_fumbles_lost := some 1 }

def c3frame : Frame := { cols := c3cols, rows := [c3row0, c3row1] }

theorem c3_turnovers_witness :
    (clean_weekly_frame c3frame none).map (List.map (fun r => r.turnovers))
        = Except.ok ([((c3row0 : InRow), (2023 : ℤ), (1 : ℤ)),
            (c3row1, 2023, 1)].map (fun t => spec_turnovers c3frame t.1))
  ∧ [((c3row0 : InRow), (2023 : ℤ), (1 : ℤ)), (c3row1, 2023, 1)].map
        (fun t => spec_turnovers c3frame t.1) = [1, 1] := by
  have hk : kept_rows c3frame none
      = Except.ok [(c3row0, 2023, 1), (c3row1, 2023, 1)] := by
    norm_num [kept_rows, coerce_rows, keeps, resolved_team, c3frame, c3cols,
      exCols, c3row0, c3row1, blankRow, py_int_cell, py_trunc, Int.floor_ofNat,
      Int.floor_one]
  have ho : ∃ out, clean_weekly_frame c3frame none = Except.ok out :=
    ⟨_, by unfold clean_weekly_frame; rw [hk]; rfl⟩
  obtain ⟨out, ho⟩ := ho
  constructor
  · rw [ho]
    exact congrArg Except.ok (c3_turnovers c3frame none _ out hk ho)
  · norm_num [spec_turnovers, resolved_interceptions, fillna0, c3frame, c3cols,
      exCols, c3row0, c3row1, blankRow]
    decide

end NflDb
